import Mathlib

/-!
Shallow embedding of `src/backend_folder/main_back.py` (a FastAPI validating
gateway in front of a storage service).

Conventions of the embedding:
* Python strings are Lean `String`s; the character predicates `str.isdigit`,
  `str.isupper`, `str.islower`, `str.isalpha` are modelled by Lean's ASCII
  `Char.isDigit` / `Char.isUpper` / `Char.isLower` / `Char.isAlpha` (they agree
  on the ASCII range, which is the range all the fixed rule sets live in).
* Fallible Python code (`raise ValueError`, `raise HTTPException`) is modelled
  with `Except`.
* The downstream HTTP call performed by `handle_postgres_request` is modelled
  by an explicit `CallOutcome` argument describing what the transport did
  (a response with some status and body, or a raised `httpx` exception).
-/

namespace AuthService

/-! ## Python string primitives -/

/-- Python `str.isdigit` restricted to ASCII: nonempty and all digits. -/
def pyIsDigit (s : String) : Bool :=
  s.length != 0 && s.toList.all Char.isDigit

/-- Python `str.isalpha` restricted to ASCII: nonempty and all letters
(in particular `"".isalpha()` is `False`). -/
def pyIsAlpha (s : String) : Bool :=
  s.length != 0 && s.toList.all Char.isAlpha

/-- Python `str.lower` restricted to ASCII. -/
def pyLower (s : String) : String :=
  String.mk (s.toList.map Char.toLower)

/-- Python `str.strip()`: drop whitespace from both ends. -/
def pyStrip (s : String) : String :=
  String.mk (((s.toList.dropWhile Char.isWhitespace).reverse.dropWhile
    Char.isWhitespace).reverse)

/-- Helper for `re.sub(r"\s+", " ", s)`: the flag records whether the previous
character was part of a whitespace run already replaced by a single space. -/
def collapseWsAux (prevWs : Bool) : List Char → List Char
  | [] => []
  | c :: rest =>
    if c.isWhitespace then
      if prevWs then collapseWsAux true rest
      else ' ' :: collapseWsAux true rest
    else c :: collapseWsAux false rest

/-- `re.sub(r"\s+", " ", s)`: every maximal whitespace run becomes one space. -/
def collapseWs (s : String) : String :=
  String.mk (collapseWsAux false s.toList)

/-- Python `s.replace(" ", "")`: with a one-character pattern this removes
every space character. -/
def removeSpaces (s : String) : String :=
  String.mk (s.toList.filter (fun c => c != ' '))

/-! ## Username validation (`UserCreate.validate_username`) -/

/-- One character of the class `[A-Za-z0-9._]`. -/
def usernameChar (c : Char) : Bool :=
  c.isAlpha || c.isDigit || c == '.' || c == '_'

/-- The regex alternative `\.+_+` anchored on the whole string: one or more
dots followed by one or more underscores. -/
def dotsThenUnderscores (l : List Char) : Bool :=
  let dots := l.takeWhile (fun c => c == '.')
  let rest := l.dropWhile (fun c => c == '.')
  !dots.isEmpty && !rest.isEmpty && rest.all (fun c => c == '_')

/-- The regex alternative `_+\.+` anchored on the whole string: one or more
underscores followed by one or more dots. -/
def underscoresThenDots (l : List Char) : Bool :=
  let und := l.takeWhile (fun c => c == '_')
  let rest := l.dropWhile (fun c => c == '_')
  !und.isEmpty && !rest.isEmpty && rest.all (fun c => c == '.')

/-- `re.fullmatch(r'^(?!(\.+_+|_+\.+)$)[A-Za-z0-9._]+$', v)`: the string is a
nonempty sequence of class characters, and the negative lookahead rules out
exactly the two shapes dots-then-underscores and underscores-then-dots. -/
def usernameRegexFullmatch (v : String) : Bool :=
  !v.isEmpty && v.toList.all usernameChar &&
    !(dotsThenUnderscores v.toList || underscoresThenDots v.toList)

/-- Error message of the character-class / lookahead branch of
`validate_username`. -/
def usernameClassMsg : String :=
  "Username может содержать только латинские буквы (a-z), цифры, точки и подчёркивания, но не может состоять только из них"

/-- Error message of the all-digits branch of `validate_username`. -/
def usernameDigitsMsg : String :=
  "Username не может состоять только из цифр"

/-- `UserCreate.validate_username`. -/
def validate_username (v : String) : Except String String :=
  if !usernameRegexFullmatch v then Except.error usernameClassMsg
  else if pyIsDigit v then Except.error usernameDigitsMsg
  else Except.ok v

/-- Pydantic handling of `username: str = Field(default=None, min_length=2,
max_length=50)`: a request that omits the field takes the default `None`, and
pydantic does not apply the length constraints or the field validator to a
default value (`validate_default` is `False` by default), so the record is
accepted with `username = None`.  A supplied value is length-checked and then
passed to `validate_username`. -/
def usernameField : Option String → Except String (Option String)
  | none => Except.ok none
  | some v =>
    if v.length < 2 then Except.error "string_too_short"
    else if v.length > 50 then Except.error "string_too_long"
    else (validate_username v).map some

/-! ## Name validation (`UserCreate.validate_name`) -/

/-- Error message of `validate_name`. -/
def nameMsg : String := "Имя должно содержать только буквы и пробелы"

/-- `re.sub(r"\s+", " ", v.strip())`: trim the ends, then collapse every
whitespace run to a single space. -/
def normalizeName (v : String) : String :=
  collapseWs (pyStrip v)

/-- `UserCreate.validate_name`: `None` passes through; otherwise normalize
whitespace and require `normalized.replace(" ", "").isalpha()`. -/
def validate_name : Option String → Except String (Option String)
  | none => Except.ok none
  | some v =>
    let normalized_name := normalizeName v
    if !(pyIsAlpha (removeSpaces normalized_name)) then Except.error nameMsg
    else Except.ok (some normalized_name)

/-! ## Password validation (`UserCreate.validate_password`) -/

/-- The character class of the pattern `'[@_!#$%^&*()<>?/\|}{~:]'`.  Inside a
regex character class `\|` is an escaped pipe, i.e. the literal `|`; the set
therefore does not contain a backslash. -/
def special_chars : List Char :=
  ['@', '_', '!', '#', '$', '%', '^', '&', '*', '(', ')', '<', '>', '?', '/',
   '|', '\x7d', '\x7b', '~', ':']

/-- Error message of the length rule. -/
def msgLen : String := "Пароль должен быть не менее 8 символов"

/-- Error message of the digit rule. -/
def msgDigit : String := "Пароль должен содержать хотя бы одну цифру"

/-- Error message of the uppercase rule. -/
def msgUpper : String := "Пароль должен содержать хотя бы одну заглавную букву"

/-- Error message of the lowercase rule. -/
def msgLower : String := "Пароль должен содержать хотя бы одну строчную букву"

/-- Error message of the special-character rule. -/
def msgSpecial : String :=
  "Пароль должен содержать хотя бы один специальный символ (@_!#$%^&*()<>?/\\|\x7d\x7b~:)"

/-- `UserCreate.validate_password`: five checks in source order, first failing
check raises. -/
def validate_password (v : String) : Except String String :=
  if v.length < 8 then Except.error msgLen
  else if !(v.toList.any Char.isDigit) then Except.error msgDigit
  else if !(v.toList.any Char.isUpper) then Except.error msgUpper
  else if !(v.toList.any Char.isLower) then Except.error msgLower
  else if !(v.toList.any (fun c => special_chars.contains c)) then
    Except.error msgSpecial
  else Except.ok v

/-- The conjunction of the five password rules, over the character class the
source pattern actually denotes. -/
def passwordRules (v : String) : Prop :=
  8 ≤ v.length ∧ v.toList.any Char.isDigit = true ∧
    v.toList.any Char.isUpper = true ∧ v.toList.any Char.isLower = true ∧
    v.toList.any (fun c => special_chars.contains c) = true

instance (v : String) : Decidable (passwordRules v) := by
  unfold passwordRules
  infer_instance

/-- Follows the spec's words (its special-character set read with a literal
backslash between `/` and `|`), for comparison with `special_chars`. -/
def special_chars_spec : List Char :=
  ['@', '_', '!', '#', '$', '%', '^', '&', '*', '(', ')', '<', '>', '?', '/',
   '\\', '|', '\x7d', '\x7b', '~', ':']

/-- The five password rules, named, in the order the source checks them. -/
inductive PwRule
  | length
  | digit
  | upper
  | lower
  | special
deriving DecidableEq

/-- The message each password rule raises with. -/
def pwMsg : PwRule → String
  | .length => msgLen
  | .digit => msgDigit
  | .upper => msgUpper
  | .lower => msgLower
  | .special => msgSpecial

/-- Whether a given password violates a given rule. -/
def pwViolated (v : String) : PwRule → Bool
  | .length => decide (v.length < 8)
  | .digit => !(v.toList.any Char.isDigit)
  | .upper => !(v.toList.any Char.isUpper)
  | .lower => !(v.toList.any Char.isLower)
  | .special => !(v.toList.any (fun c => special_chars.contains c))

/-- The order the spec states: length, digit, uppercase, lowercase, special. -/
def pwOrder : List PwRule :=
  [PwRule.length, PwRule.digit, PwRule.upper, PwRule.lower, PwRule.special]

/-- Per the spec's words: the first rule of the fixed order that the password
violates, if any. -/
def firstViolation (v : String) : Option PwRule :=
  pwOrder.find? (pwViolated v)

/-! ## Role validation (`UserCreate.validate_role`) -/

/-- How an exception raised inside the role validator is classified:
a `ValueError` becomes a structured pydantic validation error, while any other
exception (here the `AttributeError` from `None.lower()`) propagates as an
internal failure. -/
inductive RoleError
  | valueError (msg : String)
  | attributeError
deriving DecidableEq

/-- Error message of `validate_role` (the f-string with the joined roles). -/
def roleMsg : String := "Роль должна быть одной из: user, admin"

/-- `UserCreate.validate_role`: `v.lower()` on `None` raises
`AttributeError`; otherwise membership of `['user', 'admin']` is required and
the lowercased value returned. -/
def validate_role : Option String → Except RoleError String
  | none => Except.error RoleError.attributeError
  | some v =>
    if (["user", "admin"] : List String).contains (pyLower v) then
      Except.ok (pyLower v)
    else Except.error (RoleError.valueError roleMsg)

/-- Pydantic handling of `role: Optional[str] = "user"`: an omitted field
takes the default `"user"` without running the validator; an explicitly
supplied value (including an explicit `null`) is passed to `validate_role`. -/
def roleField : Option (Option String) → Except RoleError String
  | none => Except.ok "user"
  | some v => validate_role v

/-! ## The proxy (`handle_postgres_request` and the routes) -/

/-- A downstream HTTP response: its status code, and `some body` when
`response.json()` parses, `none` when the body is not valid JSON (so that
`.json()` raises). -/
structure Response where
  status : Nat
  jsonBody : Option String
deriving DecidableEq

/-- Exceptions `httpx` raises while performing the request.  Per the `httpx`
exception hierarchy, the timeout exceptions (`ConnectTimeout`, `ReadTimeout`,
`WriteTimeout`, `PoolTimeout`) derive from `TimeoutException`, a sibling of
`NetworkError`, while `ConnectError` derives from `NetworkError`; a timeout is
therefore not an instance of `ConnectError` and is not caught by the
`except httpx.ConnectError` clause. -/
inductive HttpxExc
  | connectError
  | timeoutException
  | otherException
deriving DecidableEq

/-- What the transport did for the single downstream attempt: produced a
response, or raised before a response existed. -/
inductive CallOutcome
  | response (r : Response)
  | raised (e : HttpxExc)
deriving DecidableEq

/-- The value of the `detail` field of a raised `HTTPException`: the handlers
in `handle_postgres_request` pass a dict `{error, type}`, while the route-level
`except Exception` handlers pass the bare string `str(e)`. -/
inductive Detail
  | structured (error ty : String)
  | bare (s : String)
deriving DecidableEq

/-- A raised `fastapi.HTTPException`. -/
structure HTTPExc where
  status_code : Nat
  detail : Detail
deriving DecidableEq

/-- `httpx` success statuses: `response.raise_for_status()` raises
`HTTPStatusError` exactly when the status is not 2xx. -/
def is2xx (s : Nat) : Bool :=
  decide (200 ≤ s) && decide (s < 300)

/-- The message `f"Postgres service returned error: {str(e)}"`, with `str(e)`
abbreviated to the status code it reports. -/
def httpErrMsg (status : Nat) : String :=
  "Postgres service returned error: " ++ toString status

/-- `handle_postgres_request`: run the request, call `raise_for_status`, and
dispatch raised exceptions through the `except` chain
(`ConnectError` → 503 connection_error, `HTTPStatusError` → downstream status
with http_error, anything else → 500 unexpected_error). -/
def handle_postgres_request (o : CallOutcome) : Except HTTPExc Response :=
  match o with
  | .response r =>
    if is2xx r.status then Except.ok r
    else
      Except.error
        ⟨r.status, Detail.structured (httpErrMsg r.status) "http_error"⟩
  | .raised e =>
    match e with
    | .connectError =>
      Except.error ⟨503, Detail.structured "Postgres service unavailable" "connection_error"⟩
    | _ =>
      Except.error ⟨500, Detail.structured "Internal server error" "unexpected_error"⟩

/-- The message `str(e)` of the JSON-decode failure raised by
`postgres_response.json()` on a non-JSON body. -/
def jsonDecodeMsg : String := "json decode error"

/-- The shared body of every route handler: forward through
`handle_postgres_request`, re-raise its `HTTPException` unchanged, return
`JSONResponse(content=response.json(), status_code=response.status_code)` on
success, and map any other exception (such as the JSON decode failure) to
`HTTPException(500, detail=str(e))` with a bare string detail. -/
def forward_route (o : CallOutcome) : Except HTTPExc (Nat × String) :=
  match handle_postgres_request o with
  | .error he => Except.error he
  | .ok r =>
    match r.jsonBody with
    | some b => Except.ok (r.status, b)
    | none => Except.error ⟨500, Detail.bare jsonDecodeMsg⟩

/-- The `POST /add_user` handler, after the body has validated. -/
def add_user (o : CallOutcome) : Except HTTPExc (Nat × String) :=
  forward_route o

/-- The `GET /get_user/{user_id}` handler. -/
def get_user (user_id : Nat) (o : CallOutcome) : Except HTTPExc (Nat × String) :=
  forward_route o

/-- The error-body shape the spec allows: a `{error, type}` dict whose type is
one of the four documented kinds. -/
def detailWellFormed : Detail → Bool
  | .structured _ ty =>
    (["connection_error", "http_error", "unexpected_error",
      "validation_error"] : List String).contains ty
  | .bare _ => false

/-! ## Helper lemmas -/

/-- Unfolding equation of `validate_name` on a present value. -/
lemma validate_name_some (v : String) :
    validate_name (some v) =
      if !(pyIsAlpha (removeSpaces (normalizeName v))) then Except.error nameMsg
      else Except.ok (some (normalizeName v)) := rfl

/-- Removing the spaces of a character list keeps exactly the alphabetic
characters when and only when every character is alphabetic or a space. -/
lemma filter_all_alpha (l : List Char) :
    (l.filter (fun c => c != ' ')).all Char.isAlpha =
      l.all (fun c => c.isAlpha || c == ' ') := by
  induction l with
  | nil => rfl
  | cons c cs ih =>
    by_cases hsp : c = ' '
    · subst hsp
      simp [List.filter_cons, ih]
    · have hb : (c != ' ') = true := bne_iff_ne.mpr hsp
      have hbeq : (c == ' ') = false := by
        simpa using hsp
      simp [List.filter_cons, hb, hbeq, ih]

/-- The space-free part of a character list is nonempty and all-alphabetic
exactly when the list is made of letters and spaces and holds at least one
letter. -/
lemma filter_alpha_nonempty (l : List Char) :
    (((l.filter (fun c => c != ' ')).length != 0) &&
        (l.filter (fun c => c != ' ')).all Char.isAlpha) = true ↔
      (l.all (fun c => c.isAlpha || c == ' ') = true ∧
        l.any Char.isAlpha = true) := by
  rw [Bool.and_eq_true, filter_all_alpha]
  constructor
  · rintro ⟨hne, hall⟩
    refine ⟨hall, ?_⟩
    have hne' : l.filter (fun c => c != ' ') ≠ [] := by
      intro hnil
      rw [hnil] at hne
      exact absurd hne (by decide)
    obtain ⟨c, hc⟩ := List.exists_mem_of_ne_nil _ hne'
    obtain ⟨hcl, hcp⟩ := List.mem_filter.mp hc
    have := List.all_eq_true.mp hall c hcl
    rcases Bool.or_eq_true _ _ |>.mp this with ha | hs
    · exact List.any_eq_true.mpr ⟨c, hcl, ha⟩
    · exact absurd (beq_iff_eq.mp hs) (bne_iff_ne.mp hcp)
  · rintro ⟨hall, hany⟩
    refine ⟨?_, hall⟩
    obtain ⟨c, hcl, ha⟩ := List.any_eq_true.mp hany
    have hcsp : c ≠ ' ' := by
      intro hsp
      rw [hsp] at ha
      exact absurd ha (by decide)
    have hmem : c ∈ l.filter (fun c => c != ' ') :=
      List.mem_filter.mpr ⟨hcl, bne_iff_ne.mpr hcsp⟩
    have hne : l.filter (fun c => c != ' ') ≠ [] := List.ne_nil_of_mem hmem
    simpa [List.length_eq_zero] using hne

/-- `validate_password` reports exactly the message of the first rule of the
fixed order that its input violates. -/
lemma validate_password_eq_firstViolation (v : String) :
    validate_password v =
      match firstViolation v with
      | none => Except.ok v
      | some r => Except.error (pwMsg r) := by
  unfold validate_password firstViolation pwOrder pwViolated
  rw [List.find?_cons, List.find?_cons, List.find?_cons, List.find?_cons,
    List.find?_cons]
  by_cases h1 : v.length < 8
  · rw [if_pos h1, decide_eq_true h1]; rfl
  · rw [if_neg h1, decide_eq_false h1]
    cases h2 : v.toList.any Char.isDigit
    · rfl
    · cases h3 : v.toList.any Char.isUpper
      · rfl
      · cases h4 : v.toList.any Char.isLower
        · rfl
        · cases h5 : v.toList.any (fun c => special_chars.contains c)
          · rfl
          · rfl

/-! ## Claim theorems -/

/-- C1: contrary to the claim (and to the validator's own error message, which
says a username must not consist solely of dots and underscores), the
username validator accepts the filler-only strings `"..."`, `"___"` and
`"._."`: the lookahead `(?!(\.+_+|_+\.+)$)` only rejects the two shapes
dots-then-underscores and underscores-then-dots, such as `"._"`.  All-digit
strings such as `"123"` are rejected as the claim says. -/
theorem username_filler_accepted :
    validate_username "..." = Except.ok "..." ∧
    validate_username "___" = Except.ok "___" ∧
    validate_username "._." = Except.ok "._." ∧
    validate_username "._" = Except.error usernameClassMsg ∧
    validate_username "123" = Except.error usernameDigitsMsg :=
  ⟨rfl, rfl, rfl, rfl, rfl⟩

/-- C2 counterexample: a timed-out downstream call raises a timeout exception,
which `except httpx.ConnectError` does not catch, so the wrapper surfaces it
as status 500 with type `unexpected_error`, not as the 503 `connection_error`
the claim states. -/
theorem timeout_not_connection_error :
    handle_postgres_request (CallOutcome.raised HttpxExc.timeoutException) =
      Except.error
        ⟨500, Detail.structured "Internal server error" "unexpected_error"⟩ ∧
    (⟨500, Detail.structured "Internal server error" "unexpected_error"⟩ :
        HTTPExc) ≠
      ⟨503, Detail.structured "Postgres service unavailable" "connection_error"⟩ :=
  ⟨rfl, by decide⟩

/-- C2 amended: only an unreachable or connection-refused downstream
(`httpx.ConnectError`) is surfaced as status 503 with kind
`connection_error`; an elapsed timeout falls through to the catch-all handler
and is surfaced as status 500 with kind `unexpected_error`. -/
theorem timeout_maps_to_unexpected_error :
    handle_postgres_request (CallOutcome.raised HttpxExc.timeoutException) =
      Except.error
        ⟨500, Detail.structured "Internal server error" "unexpected_error"⟩ ∧
    handle_postgres_request (CallOutcome.raised HttpxExc.connectError) =
      Except.error
        ⟨503, Detail.structured "Postgres service unavailable" "connection_error"⟩ :=
  ⟨rfl, rfl⟩

/-- C3 counterexample: the claim reads the special-character set with a
backslash in it, but in the pattern `'[@_!#$%^&*()<>?/\|}{~:]'` the `\|` is an
escaped pipe, so a backslash does not satisfy the special-character rule:
`"Abcd123\\"` (seven alphanumerics and a final backslash) meets every rule of
the claim, including membership of the claimed set, yet is rejected with the
special-character message. -/
theorem password_backslash_cex :
    (8 ≤ ("Abcd123\\" : String).length ∧
      ("Abcd123\\" : String).toList.any Char.isDigit = true ∧
      ("Abcd123\\" : String).toList.any Char.isUpper = true ∧
      ("Abcd123\\" : String).toList.any Char.isLower = true ∧
      ("Abcd123\\" : String).toList.any
        (fun c => special_chars_spec.contains c) = true) ∧
    validate_password "Abcd123\\" = Except.error msgSpecial :=
  ⟨by decide, rfl⟩

/-- C3 amended: `validate_password` accepts a password, returning it
unchanged, if and only if all five rules hold, with the special-character set
the source pattern denotes: `@ _ ! # $ % ^ & * ( ) < > ? / | \x7d \x7b ~ :`
(pipe included, backslash not — `\|` in the character class escapes the
pipe); `"Abcd123!"` passes. -/
theorem password_accept_iff_rules (v : String) :
    validate_password v = Except.ok v ↔ passwordRules v := by
  unfold validate_password passwordRules
  split_ifs with h1 h2 h3 h4 h5
  · exact ⟨fun h => h.elim, fun h => absurd h.1 (by omega)⟩
  · refine ⟨fun h => h.elim, fun h => ?_⟩
    rw [h.2.1] at h2
    exact absurd h2 (by decide)
  · refine ⟨fun h => h.elim, fun h => ?_⟩
    rw [h.2.2.1] at h3
    exact absurd h3 (by decide)
  · refine ⟨fun h => h.elim, fun h => ?_⟩
    rw [h.2.2.2.1] at h4
    exact absurd h4 (by decide)
  · refine ⟨fun h => h.elim, fun h => ?_⟩
    rw [h.2.2.2.2] at h5
    exact absurd h5 (by decide)
  · refine ⟨fun _ => ⟨by omega, ?_, ?_, ?_, ?_⟩, fun _ => rfl⟩ <;> simp_all

/-- C3 witness: `"Abcd123!"` satisfies the five rules and is accepted
unchanged. -/
theorem password_accept_iff_rules_witness :
    validate_password "Abcd123!" = Except.ok "Abcd123!" :=
  (password_accept_iff_rules "Abcd123!").mpr (by decide)

/-- C4: for every password, `validate_password` reports exactly the message
of the first violated rule of the fixed order length, digit, uppercase,
lowercase, special character, and accepts when no rule is violated; in
particular `"abc"` fails with the length message and `"Abc12345"` with the
special-character message. -/
theorem password_first_violated_rule_wins :
    (∀ v, validate_password v =
      match firstViolation v with
      | none => Except.ok v
      | some r => Except.error (pwMsg r)) ∧
    validate_password "abc" = Except.error msgLen ∧
    validate_password "Abc12345" = Except.error msgSpecial :=
  ⟨validate_password_eq_firstViolation, rfl, rfl⟩

/-- C5: a downstream response with a non-2xx status is surfaced by the route
handler as an error whose status code equals the downstream status and whose
type is `http_error` — never a synthesized not-found kind. -/
theorem non2xx_preserves_status (user_id status : Nat) (body : Option String)
    (h : is2xx status = false) :
    get_user user_id (CallOutcome.response ⟨status, body⟩) =
      Except.error
        ⟨status, Detail.structured (httpErrMsg status) "http_error"⟩ := by
  simp [get_user, forward_route, handle_postgres_request, h]

/-- C5 witness: a downstream 404 for `get_user 999` is surfaced as status
404 with type `http_error`. -/
theorem non2xx_preserves_status_witness :
    get_user 999 (CallOutcome.response ⟨404, none⟩) =
      Except.error ⟨404, Detail.structured (httpErrMsg 404) "http_error"⟩ :=
  non2xx_preserves_status 999 404 none rfl

/-- C6 counterexample: a 2xx downstream response whose body is not valid JSON
makes `postgres_response.json()` raise, and the route-level `except Exception`
surfaces it as `HTTPException(500, detail=str(e))` — a bare string detail,
not the `{error, type}` shape the claim says every error has. -/
theorem bare_detail_cex :
    add_user (CallOutcome.response ⟨200, none⟩) =
      Except.error ⟨500, Detail.bare jsonDecodeMsg⟩ ∧
    detailWellFormed (Detail.bare jsonDecodeMsg) = false :=
  ⟨rfl, rfl⟩

/-- C6 amended: every error raised by `handle_postgres_request` has the
structured `{error, type}` detail with a documented type, but the route-level
catch-all handlers surface post-call failures (such as a non-JSON success
body) with a bare string detail, so not every surfaced error has the claimed
shape. -/
theorem handle_errors_well_formed (o : CallOutcome) (he : HTTPExc)
    (h : handle_postgres_request o = Except.error he) :
    detailWellFormed he.detail = true := by
  cases o with
  | response r =>
    simp only [handle_postgres_request] at h
    by_cases h2 : is2xx r.status = true
    · rw [if_pos h2] at h
      exact Except.noConfusion h
    · rw [if_neg h2] at h
      injection h with h3
      rw [← h3]
      rfl
  | raised e =>
    cases e <;> simp only [handle_postgres_request] at h <;>
      injection h with h3 <;> rw [← h3] <;> rfl

/-- C6 witness: the connection-error envelope is structured with a documented
type. -/
theorem handle_errors_well_formed_witness :
    detailWellFormed
      (Detail.structured "Postgres service unavailable" "connection_error") =
      true :=
  handle_errors_well_formed (CallOutcome.raised HttpxExc.connectError)
    ⟨503, Detail.structured "Postgres service unavailable" "connection_error"⟩
    rfl

/-- C7: the password validation error depends only on which rule fired, not
on the password's value: every surfaced message is one of the five fixed
constants, and two passwords whose first violated rule coincides receive the
identical message. -/
theorem password_error_value_independent :
    (∀ v e, validate_password v = Except.error e →
      e = msgLen ∨ e = msgDigit ∨ e = msgUpper ∨ e = msgLower ∨
        e = msgSpecial) ∧
    (∀ v1 v2 e1 e2, validate_password v1 = Except.error e1 →
      validate_password v2 = Except.error e2 →
      firstViolation v1 = firstViolation v2 → e1 = e2) := by
  constructor
  · intro v e h
    rw [validate_password_eq_firstViolation v] at h
    cases hf : firstViolation v with
    | none =>
      rw [hf] at h
      exact Except.noConfusion h
    | some r =>
      rw [hf] at h
      injection h with h1
      rw [← h1]
      cases r with
      | length => exact Or.inl rfl
      | digit => exact Or.inr (Or.inl rfl)
      | upper => exact Or.inr (Or.inr (Or.inl rfl))
      | lower => exact Or.inr (Or.inr (Or.inr (Or.inl rfl)))
      | special => exact Or.inr (Or.inr (Or.inr (Or.inr rfl)))
  · intro v1 v2 e1 e2 h1 h2 h12
    rw [validate_password_eq_firstViolation v1, h12] at h1
    rw [validate_password_eq_firstViolation v2] at h2
    cases hf : firstViolation v2 with
    | none =>
      rw [hf] at h1
      exact Except.noConfusion h1
    | some r =>
      rw [hf] at h1
      rw [hf] at h2
      injection h1 with g1
      injection h2 with g2
      rw [← g1, ← g2]

/-- C7 witness: `"abc"` and `"xy"` both violate the length rule first and
receive the identical fixed message. -/
theorem password_error_value_independent_witness :
    (msgLen = msgLen ∨ msgLen = msgDigit ∨ msgLen = msgUpper ∨
      msgLen = msgLower ∨ msgLen = msgSpecial) ∧ msgLen = msgLen :=
  ⟨password_error_value_independent.1 "abc" msgLen rfl,
   password_error_value_independent.2 "abc" "xy" msgLen msgLen rfl rfl rfl⟩

/-- C8: the username field is not required: `default=None` on the pydantic
field means a request omitting the username is accepted with `username =
None`, and neither the 2..50 length constraints nor `validate_username` run
on the default, although the field is annotated `str` and the claim (and
spec) say it is required. -/
theorem username_not_required :
    usernameField none = Except.ok none ∧
    usernameField (some "ab") = Except.ok (some "ab") :=
  ⟨rfl, rfl⟩

/-- C9 counterexample: a whitespace-only name normalizes to the empty string,
which contains only alphabetic characters and spaces (vacuously), yet the
validator rejects it because Python's `"".isalpha()` is `False`. -/
theorem whitespace_name_rejected_cex :
    validate_name (some "   ") = Except.error nameMsg ∧
    (normalizeName "   ").toList.all (fun c => c.isAlpha || c == ' ') = true :=
  ⟨rfl, by decide⟩

/-- C9 amended: `None` passes through unchanged; a present name is normalized
(whitespace runs collapsed to one space, ends trimmed) and accepted with the
normalized value exactly when the normalized result contains only alphabetic
characters and spaces and contains at least one alphabetic character (so
whitespace-only names are rejected); `"  John   Doe  "` normalizes to
`"John Doe"` and `"John3"` is rejected. -/
theorem name_validation_spec :
    validate_name none = Except.ok none ∧
    (∀ v, validate_name (some v) = Except.ok (some (normalizeName v)) ↔
      ((normalizeName v).toList.all (fun c => c.isAlpha || c == ' ') = true ∧
        (normalizeName v).toList.any Char.isAlpha = true)) ∧
    normalizeName "  John   Doe  " = "John Doe" ∧
    validate_name (some "John3") = Except.error nameMsg := by
  refine ⟨rfl, ?_, rfl, rfl⟩
  intro v
  rw [← filter_alpha_nonempty]
  have hrw : pyIsAlpha (removeSpaces (normalizeName v)) =
      ((((normalizeName v).toList.filter (fun c => c != ' ')).length != 0) &&
        ((normalizeName v).toList.filter (fun c => c != ' ')).all
          Char.isAlpha) := rfl
  rw [validate_name_some, hrw]
  cases hp : (((normalizeName v).toList.filter (fun c => c != ' ')).length
      != 0) && ((normalizeName v).toList.filter (fun c => c != ' ')).all
        Char.isAlpha with
  | false =>
    exact ⟨fun h => Except.noConfusion h, fun h => Bool.noConfusion h⟩
  | true =>
    exact ⟨fun _ => rfl, fun _ => rfl⟩

/-- C9 witness: a well-formed name is accepted with its normalized value. -/
theorem name_validation_spec_witness :
    validate_name (some "John Doe") = Except.ok (some "John Doe") :=
  (name_validation_spec.2.1 "John Doe").mpr (by decide)

/-- C10: supplying the role field explicitly as `null` reaches
`v.lower()` with `v = None`, which raises `AttributeError` — not a
`ValueError`, hence no structured validation rejection — although the field
is optional with default `"user"`: omitting it yields `"user"`, and a
supplied `"ADMIN"` is accepted lowercased. -/
theorem role_null_attribute_error :
    roleField (some none) = Except.error RoleError.attributeError ∧
    (∀ m, RoleError.attributeError ≠ RoleError.valueError m) ∧
    roleField none = Except.ok "user" ∧
    roleField (some (some "ADMIN")) = Except.ok "admin" :=
  ⟨rfl, fun m h => RoleError.noConfusion h, rfl, rfl⟩

/-- C10 witness: the `AttributeError` outcome is not the structured
`ValueError` rejection carrying the role message. -/
theorem role_null_attribute_error_witness :
    RoleError.attributeError ≠ RoleError.valueError roleMsg :=
  role_null_attribute_error.2.1 roleMsg

end AuthService
